import Mathlib

/-!
Shallow embedding of the bolted-connection resistance engine of the
EN_1993 repository (EN 1993-1-8:2005 Table 3.4 and EN 1993-1-3:2006
Table 8.4), translated from
`src/1-8_2005/3_Connections/C3_6_design_resistance.py` and
`src/1-3_2006/8_Calculo_uniones/C8_3_resistencia_diseno_tornillos.py`.

Python floats are embedded as exact rationals; the numeric literals of
the source (0.6, 1.7, 2.8, 1.07735, ...) become the corresponding exact
rationals.  Python exceptions become an explicit error type: a `raise`
of a typed `ValueError` is mapped to the corresponding constructor, a
branch that leaves the local variable of the return statement unassigned
(so that the `return` fails with `UnboundLocalError`, possibly right
after a `print`) is mapped to `PyErr.unboundLocal`, an out-of-range list
index to `PyErr.indexError`, a failing `int(...)` parse to
`PyErr.valueError`, and a division by zero to `PyErr.zeroDivision`.
-/

/-- Outcomes of the embedded Python code that do not produce a value. -/
inductive PyErr where
  /-- ValueError raised for a non-positive geometric or material input
  (d_0, g_M2 or f_u); the InvalidInputError of the spec taxonomy. -/
  | invalidInput : PyErr
  /-- ValueError raised for a position tag outside the enumerated set;
  the InvalidPositionError of the spec taxonomy. -/
  | invalidPosition : PyErr
  /-- UnboundLocalError: a branch fell through without assigning the
  variable of the return statement (possibly after a print). -/
  | unboundLocal : PyErr
  /-- IndexError from indexing past the end of a list. -/
  | indexError : PyErr
  /-- ValueError from a failing int(...) parse. -/
  | valueError : PyErr
  /-- ZeroDivisionError. -/
  | zeroDivision : PyErr
  deriving DecidableEq, Repr

namespace ResistenciaCalculo

/-- State of the class `ResistenciaCalculo` of
`C3_6_design_resistance.py`: bolt diameter d, gross area A, tensile
stress area A_s, grade string, bolt ultimate strength f_ub, plate
thickness t, plate ultimate strength f_u and partial factor g_M2. -/
structure Datos where
  d : ℚ
  A : ℚ
  A_s : ℚ
  grado : String
  f_ub : ℚ
  t : ℚ
  f_u : ℚ
  g_M2 : ℚ
  deriving DecidableEq, Repr

/-- Validation performed by `ResistenciaCalculo.__init__` (lines 62-65):
g_M2 and f_u must be positive, otherwise a ValueError is raised. -/
def Datos.valida (p : Datos) : Prop := 0 < p.g_M2 ∧ 0 < p.f_u

/-- Grades taking alfa_v = 0.6 when the shear plane crosses the thread
(line 87 of the source). -/
def gradosAlfaV06 : List String := ["4.6", "5.6", "8.8"]

/-- Grades taking alfa_v = 0.5 when the shear plane crosses the thread
(line 89 of the source). -/
def gradosAlfaV05 : List String := ["4.8", "5.8", "6.8", "10.9"]

/-- Method `coeficiente_cortante_alfa_v` (lines 77-94).  When the shear
plane crosses the thread and the grade is in neither tuple, no branch
assigns `alfa_v` and the `return` fails with UnboundLocalError. -/
def coeficiente_cortante_alfa_v (p : Datos) (plano_cortante_atraviesa_rosca : Bool) :
    Except PyErr ℚ :=
  if plano_cortante_atraviesa_rosca then
    if p.grado ∈ gradosAlfaV06 then .ok 0.6
    else if p.grado ∈ gradosAlfaV05 then .ok 0.5
    else .error .unboundLocal
  else .ok 0.6

/-- Method `resistencia_cortante` (lines 96-112): F_vRd = alfa_v * f_ub
* A / g_M2 with A the tensile stress area A_s when the shear plane
crosses the thread and the gross area A otherwise. -/
def resistencia_cortante (p : Datos) (plano_cortante_atraviesa_rosca : Bool) :
    Except PyErr ℚ := do
  let alfa_v ← coeficiente_cortante_alfa_v p plano_cortante_atraviesa_rosca
  let A : ℚ := if plano_cortante_atraviesa_rosca then p.A_s else p.A
  return alfa_v * p.f_ub * A / p.g_M2

/-- Method `coeficiente_k_1` (lines 115-148): raises ValueError when
d_0 is not positive, computes min over the edge or inner candidates,
and raises ValueError for any other position string. -/
def coeficiente_k_1 (e_2 p_2 d_0 : ℚ) (posicion : String) : Except PyErr ℚ :=
  if d_0 ≤ 0 then .error .invalidInput
  else if posicion = "edge" then
    .ok (min (min (2.8 * e_2 / d_0 - 1.7) (1.4 * p_2 / d_0 - 1.7)) 2.5)
  else if posicion = "inner" then
    .ok (min (1.4 * p_2 / d_0 - 1.7) 2.5)
  else .error .invalidPosition

/-- Method `coeficiente_alfa_d` (lines 150-175): raises ValueError when
d_0 is not positive; for a position outside {end, inner} the else
branch only prints, so the `return alfa_d` fails with
UnboundLocalError. -/
def coeficiente_alfa_d (e_1 p_1 d_0 : ℚ) (posicion : String) : Except PyErr ℚ :=
  if d_0 ≤ 0 then .error .invalidInput
  else if posicion = "end" then .ok (e_1 / (3 * d_0))
  else if posicion = "inner" then .ok (p_1 / (3 * d_0) - 1 / 4)
  else .error .unboundLocal

/-- Method `coeficiente_alfa_b` (lines 177-199): raises ValueError when
d_0 is not positive, then alfa_b = min(alfa_d, f_ub / f_u, 1.0). -/
def coeficiente_alfa_b (p : Datos) (e_1 p_1 d_0 : ℚ) (posicion : String) :
    Except PyErr ℚ :=
  if d_0 ≤ 0 then .error .invalidInput
  else do
    let alfa_d ← coeficiente_alfa_d e_1 p_1 d_0 posicion
    return min (min alfa_d (p.f_ub / p.f_u)) 1

/-- Method `capacidad_resistente_F_bRd` (lines 201-228): F_bRd = k_1 *
alfa_b * f_u * d * t / g_M2, with k_1 computed first. -/
def capacidad_resistente_F_bRd (p : Datos) (e_1 e_2 p_1 p_2 d_0 : ℚ)
    (posicion_k1 posicion_ad : String) : Except PyErr ℚ := do
  let k_1 ← coeficiente_k_1 e_2 p_2 d_0 posicion_k1
  let alfa_b ← coeficiente_alfa_b p e_1 p_1 d_0 posicion_ad
  return k_1 * alfa_b * p.f_u * p.d * p.t / p.g_M2

/-- Method `capacidad_resistente_taladro_holgura_F_bRd` (lines
230-256): oversized holes, 0.8 times the base value. -/
def capacidad_resistente_taladro_holgura_F_bRd (p : Datos) (e_1 e_2 p_1 p_2 d_0 : ℚ)
    (posicion_k1 posicion_ad : String) : Except PyErr ℚ :=
  (capacidad_resistente_F_bRd p e_1 e_2 p_1 p_2 d_0 posicion_k1 posicion_ad).map
    (fun F => 0.8 * F)

/-- Method `capacidad_resistente_taladro_rasgado_F_bRd` (lines
258-290): slotted holes; this variant, unlike the other two, first
validates both position strings with explicit raises, then returns 0.6
times the base value. -/
def capacidad_resistente_taladro_rasgado_F_bRd (p : Datos) (e_1 e_2 p_1 p_2 d_0 : ℚ)
    (posicion_k1 posicion_ad : String) : Except PyErr ℚ :=
  if posicion_k1 ∉ ["edge", "inner"] then .error .invalidPosition
  else if posicion_ad ∉ ["end", "inner"] then .error .invalidPosition
  else
    (capacidad_resistente_F_bRd p e_1 e_2 p_1 p_2 d_0 posicion_k1 posicion_ad).map
      (fun F => 0.6 * F)

/-- Method `coeficiente_k_2` (lines 293-307): 0.63 for a countersunk
head, 0.9 otherwise. -/
def coeficiente_k_2 (cabeza_avellanada : Bool) : ℚ :=
  if cabeza_avellanada then 0.63 else 0.9

/-- Method `resistencia_traccion_F_tRd` (lines 309-321). -/
def resistencia_traccion_F_tRd (p : Datos) (cabeza_avellanada : Bool) : ℚ :=
  coeficiente_k_2 cabeza_avellanada * p.f_ub * p.A_s / p.g_M2

/-- Method `media_de_distancias_entre_vertices_y_caras_planas_d_m`
(lines 324-343): the source computes d_m = 1.07735 * s. -/
def media_de_distancias_entre_vertices_y_caras_planas_d_m (s : ℚ) : ℚ :=
  1.07735 * s

/-- Method `resistencia_punzonamiento_B_pRd` (lines 345-359): B_pRd =
0.6 * pi * d_m * t * f_u / g_M2; stated over the reals because the
source multiplies by `math.pi`, the one irrational constant of the
repository, so this single definition is not executable. -/
noncomputable def resistencia_punzonamiento_B_pRd (p : Datos) (s : ℚ) : ℝ :=
  0.6 * Real.pi * (media_de_distancias_entre_vertices_y_caras_planas_d_m s : ℚ)
    * p.t * p.f_u / p.g_M2

end ResistenciaCalculo

/-- Value of a nonempty digit string, folding left as Python int does;
none on the empty list or on any non-digit character. -/
def digitosValor : List Char → Nat → Option Nat
  | [], acc => some acc
  | c :: cs, acc =>
      if c.isDigit then digitosValor cs (acc * 10 + (c.toNat - 48)) else none

/-- Model of Python `int(s)` restricted to the shapes appearing in this
repository: an optional sign followed by decimal digits; none models
the ValueError of a failing parse. -/
def pyInt? (s : String) : Option Int :=
  match s.data with
  | [] => none
  | '-' :: cs => if cs = [] then none else (digitosValor cs 0).map (fun n => -(n : Int))
  | '+' :: cs => if cs = [] then none else (digitosValor cs 0).map (fun n => (n : Int))
  | cs => (digitosValor cs 0).map (fun n => (n : Int))

/-- Splits a character list at the first dot, returning the parts
before and after it, or none when there is no dot. -/
def separaPrimerPunto : List Char → Option (List Char × List Char)
  | [] => none
  | c :: cs =>
      if c = '.' then some ([], cs)
      else
        match separaPrimerPunto cs with
        | none => none
        | some (a, b) => some (c :: a, b)

/-- Model of Python `s.split(".", 1)`: at most one split, at the first
dot; a string without a dot yields the one-element list [s]. -/
def pySplitPunto1 (s : String) : List String :=
  match separaPrimerPunto s.data with
  | none => [s]
  | some (a, b) => [String.mk a, String.mk b]

namespace ResistenciasDisenoTornillos

/-- State of the class `ResistenciasDisenoTornillos` of
`C8_3_resistencia_diseno_tornillos.py`: bolt diameter d, tensile stress
area A_s, grade string, hole diameter d_0, sheet thickness t, sheet
ultimate strength f_u and partial factor g_M2.  The constructor of this
class performs no validation. -/
structure Datos where
  d : ℚ
  A_s : ℚ
  grado : String
  d_0 : ℚ
  t : ℚ
  f_u : ℚ
  g_M2 : ℚ
  deriving DecidableEq, Repr

/-- Method `RangoValidez.rango_validez_e_1` (lines 252-271): minimum
e_1 of the validity range, e_1 = 1.0 * d_0. -/
def rango_validez_e_1 (d_0 : ℚ) : ℚ := d_0

/-- Method `RangoValidez.rango_validez_e_2` (lines 273-292): minimum
e_2 of the validity range, e_2 = 1.5 * d_0. -/
def rango_validez_e_2 (d_0 : ℚ) : ℚ := 1.5 * d_0

/-- Method `RangoValidez.rango_validez_p_1` (lines 294-312): minimum
p_1 of the validity range, p_1 = 3 * d_0. -/
def rango_validez_p_1 (d_0 : ℚ) : ℚ := 3 * d_0

/-- Method `RangoValidez.rango_validez_p_2` (lines 314-333): minimum
p_2 of the validity range, p_2 = 3 * d_0. -/
def rango_validez_p_2 (d_0 : ℚ) : ℚ := 3 * d_0

/-- Method `coeficiente_alfa_b` (lines 50-67): alfa_b = min(1.0,
e_1 / (3 d)) with e_1 the minimum of the validity range. -/
def coeficiente_alfa_b (q : Datos) : ℚ :=
  min 1 (rango_validez_e_1 q.d_0 / (3 * q.d))

/-- Method `coeficiente_k_t` (lines 69-87): k_t = (0.8 t + 1.5) / 2.5
for t up to 1.25 and k_t = 1.0 above. -/
def coeficiente_k_t (q : Datos) : ℚ :=
  if q.t ≤ 1.25 then (0.8 * q.t + 1.5) / 2.5 else 1

/-- Method `capacidad_resitente_F_bRd` (lines 89-103): F_bRd = 2.5 *
alfa_b * k_t * f_u * d * t / g_M2. -/
def capacidad_resitente_F_bRd (q : Datos) : ℚ :=
  2.5 * coeficiente_alfa_b q * coeficiente_k_t q * q.f_u * q.d * q.t / q.g_M2

/-- Method `area_transversal_neta` (lines 105-120): A_net = (p_2 - d_0)
* t with p_2 the minimum of the validity range. -/
def area_transversal_neta (q : Datos) : ℚ :=
  (rango_validez_p_2 q.d_0 - q.d_0) * q.t

/-- Method `relacion_tornillos_seccion_neta_entre_tornillos_totales`
(lines 122-133): the fixed tuple of ratios r = (2, 1, 1/2, 1/3). -/
def relacion_tornillos_seccion_neta_entre_tornillos_totales : List ℚ :=
  [2, 1, 1/2, 1/3]

/-- Method `coeficiente_u` (lines 135-149): u = min(2 e_2, p_2) from
the validity-range minima. -/
def coeficiente_u (d_0 : ℚ) : ℚ :=
  min (2 * rango_validez_e_2 d_0) (rango_validez_p_2 d_0)

/-- Method `capacidad_resistente_area_transversal_neta_F_nRd` (lines
151-171): one candidate per ratio, each capped by A_net * f_u / g_M2.
Python would raise ZeroDivisionError when u or g_M2 is zero. -/
def capacidad_resistente_area_transversal_neta_F_nRd (q : Datos) :
    Except PyErr (List ℚ) :=
  if coeficiente_u q.d_0 = 0 then .error .zeroDivision
  else if q.g_M2 = 0 then .error .zeroDivision
  else
    .ok (relacion_tornillos_seccion_neta_entre_tornillos_totales.map (fun ri =>
      min ((1 + 3 * ri * (q.d_0 / coeficiente_u q.d_0 - 0.3)) * area_transversal_neta q
            * q.f_u / q.g_M2)
          (area_transversal_neta q * q.f_u / q.g_M2)))

/-- Method `limite_elastico_tornillo_f_yb` (lines 173-184): the source
takes n1 = int(grado.split(".", 1)[0]) and then indexes element [2] of
grado.split(".", 1), a two-element list for every grade of the form
n1.n2, so the second index raises IndexError. -/
def limite_elastico_tornillo_f_yb (q : Datos) : Except PyErr ℤ := do
  let partes := pySplitPunto1 q.grado
  let s0 ← match partes[0]? with
    | some s => Except.ok s
    | none => Except.error PyErr.indexError
  let n1 ← match pyInt? s0 with
    | some n => Except.ok n
    | none => Except.error PyErr.valueError
  let s2 ← match partes[2]? with
    | some s => Except.ok s
    | none => Except.error PyErr.indexError
  let n2 ← match pyInt? s2 with
    | some n => Except.ok n
    | none => Except.error PyErr.valueError
  return n1 * n2 * 10

/-- Method `resistencia_ultima_traccion_tornillo_f_ub` (lines 186-196):
f_ub = int(grado.split(".", 1)[0]) * 100. -/
def resistencia_ultima_traccion_tornillo_f_ub (q : Datos) : Except PyErr ℤ := do
  let partes := pySplitPunto1 q.grado
  let s0 ← match partes[0]? with
    | some s => Except.ok s
    | none => Except.error PyErr.indexError
  let n1 ← match pyInt? s0 with
    | some n => Except.ok n
    | none => Except.error PyErr.valueError
  return n1 * 100

/-- Method `resistencia_cortante_F_vRd` (lines 198-217): computes f_ub
first, then 0.6 f_ub A_s / g_M2 for grades 4.6, 5.6, 8.8 and 0.5 f_ub
A_s / g_M2 for grades 4.8, 5.8, 6.8, 10.9; for any other grade the
else branch only prints, so the `return F_vRd` fails with
UnboundLocalError. -/
def resistencia_cortante_F_vRd (q : Datos) : Except PyErr ℚ := do
  let f_ub ← resistencia_ultima_traccion_tornillo_f_ub q
  if q.grado ∈ (["4.6", "5.6", "8.8"] : List String) then
    return 0.6 * (f_ub : ℚ) * q.A_s / q.g_M2
  else if q.grado ∈ (["4.8", "5.8", "6.8", "10.9"] : List String) then
    return 0.5 * (f_ub : ℚ) * q.A_s / q.g_M2
  else
    Except.error PyErr.unboundLocal

/-- Method `resistencia_traccion_F_tRd` (lines 221-231): F_tRd = 0.9
f_ub A_s / g_M2. -/
def resistencia_traccion_F_tRd (q : Datos) : Except PyErr ℚ := do
  let f_ub ← resistencia_ultima_traccion_tornillo_f_ub q
  return 0.9 * (f_ub : ℚ) * q.A_s / q.g_M2

end ResistenciasDisenoTornillos

/-- Decidable equality for Except results, so that concrete runs of
the embedded code can be settled by decide. -/
instance {ε α : Type} [DecidableEq ε] [DecidableEq α] : DecidableEq (Except ε α) :=
  fun x y =>
    match x, y with
    | .ok a, .ok b =>
        if h : a = b then isTrue (by rw [h]) else isFalse (by simp [h])
    | .error a, .error b =>
        if h : a = b then isTrue (by rw [h]) else isFalse (by simp [h])
    | .ok _, .error _ => isFalse (fun h => Except.noConfusion h)
    | .error _, .ok _ => isFalse (fun h => Except.noConfusion h)

/-- Fixture bolt of the spec end-to-end example: d = 20, A = 314,
A_s = 245, grade 8.8, f_ub = 800, t = 15, f_u = 430, g_M2 = 1.25. -/
def perno88 : ResistenciaCalculo.Datos := ⟨20, 314, 245, "8.8", 800, 15, 430, 1.25⟩

/-- Fixture bolt with the unrecognized grade string 9.9. -/
def perno99 : ResistenciaCalculo.Datos := ⟨20, 314, 245, "9.9", 900, 15, 430, 1.25⟩

/-- Fixture thin-gauge bolt with grade 8.8 and d_0 = 13. -/
def tornillo88 : ResistenciasDisenoTornillos.Datos := ⟨12, 84, "8.8", 13, 2, 450, 1.25⟩

/-- Fixture thin-gauge bolt with the unrecognized grade string 9.9. -/
def tornillo99 : ResistenciasDisenoTornillos.Datos := ⟨12, 84, "9.9", 13, 2, 450, 1.25⟩

/-- Fixture thin-gauge bolt with d_0 = 12, t = 2, f_u = 450, g_M2 =
1.25, matching the round-trip example of the spec. -/
def tornillo12 : ResistenciasDisenoTornillos.Datos := ⟨12, 84, "8.8", 12, 2, 450, 1.25⟩

/-- C1: for every valid bolt grade and thread flag, resistencia_cortante
returns F_vRd = alfa_v * f_ub * A_eff / g_M2, where A_eff is A_s when
the shear plane crosses the thread and A otherwise, with alfa_v = 0.6
when the plane avoids the thread, 0.6 for grades 4.6, 5.6, 8.8 and 0.5
for grades 4.8, 5.8, 6.8, 10.9 when it crosses; for the spec fixture
with grade 8.8 and the plane through the thread the result is 94080. -/
theorem C1_resistencia_cortante (p : ResistenciaCalculo.Datos) (rosca : Bool)
    (h : p.grado ∈ ResistenciaCalculo.gradosAlfaV06 ∨
         p.grado ∈ ResistenciaCalculo.gradosAlfaV05) :
    ResistenciaCalculo.resistencia_cortante p rosca =
      Except.ok ((if rosca then
          (if p.grado ∈ ResistenciaCalculo.gradosAlfaV06 then 0.6 else 0.5) else 0.6)
        * p.f_ub * (if rosca then p.A_s else p.A) / p.g_M2) ∧
    ResistenciaCalculo.resistencia_cortante perno88 true = Except.ok 94080 := by
  constructor
  · cases rosca with
    | false =>
      simp [ResistenciaCalculo.resistencia_cortante,
        ResistenciaCalculo.coeficiente_cortante_alfa_v]
    | true =>
      rcases h with h | h
      · simp [ResistenciaCalculo.resistencia_cortante,
          ResistenciaCalculo.coeficiente_cortante_alfa_v, h]
      · have h6 : p.grado ∉ ResistenciaCalculo.gradosAlfaV06 := by
          simp only [ResistenciaCalculo.gradosAlfaV05, List.mem_cons,
            List.mem_singleton, List.not_mem_nil, or_false] at h
          rcases h with h | h | h | h <;>
            simp [ResistenciaCalculo.gradosAlfaV06, h]
        simp [ResistenciaCalculo.resistencia_cortante,
          ResistenciaCalculo.coeficiente_cortante_alfa_v, h, h6]
  · simp only [ResistenciaCalculo.resistencia_cortante,
      ResistenciaCalculo.coeficiente_cortante_alfa_v, perno88,
      ResistenciaCalculo.gradosAlfaV06, ResistenciaCalculo.gradosAlfaV05]
    norm_num

/-- Witness for C1 at the spec fixture: grade 8.8 is valid and the
resistance with the shear plane through the thread is 94080 N. -/
theorem C1_witness :
    ResistenciaCalculo.resistencia_cortante perno88 true = Except.ok 94080 :=
  (C1_resistencia_cortante perno88 true (Or.inl (by decide))).2

/-- C3: for every e_2, p_2 and positive d_0, coeficiente_k_1 with
position edge returns min(2.8 e_2 / d_0 - 1.7, 1.4 p_2 / d_0 - 1.7,
2.5) and with position inner returns min(1.4 p_2 / d_0 - 1.7, 2.5). -/
theorem C3_coeficiente_k_1 (e_2 p_2 d_0 : ℚ) (hd : 0 < d_0) :
    ResistenciaCalculo.coeficiente_k_1 e_2 p_2 d_0 "edge" =
      Except.ok (min (2.8 * e_2 / d_0 - 1.7) (min (1.4 * p_2 / d_0 - 1.7) 2.5)) ∧
    ResistenciaCalculo.coeficiente_k_1 e_2 p_2 d_0 "inner" =
      Except.ok (min (1.4 * p_2 / d_0 - 1.7) 2.5) := by
  constructor <;>
    simp [ResistenciaCalculo.coeficiente_k_1, hd.not_le, min_assoc]

/-- Witness for C3 at e_2 = 2, p_2 = 3, d_0 = 1: the edge candidates
are 3.9, 2.5, 2.5 and the inner candidates 2.5, 2.5, so both
positions give 2.5. -/
theorem C3_witness :
    ResistenciaCalculo.coeficiente_k_1 2 3 1 "edge" = Except.ok 2.5 ∧
    ResistenciaCalculo.coeficiente_k_1 2 3 1 "inner" = Except.ok 2.5 := by
  have h := C3_coeficiente_k_1 2 3 1 (by norm_num)
  refine ⟨?_, ?_⟩
  · rw [h.1]; norm_num [min_def]
  · rw [h.2]; norm_num [min_def]

/-- C4: for every positive d_0 and position in {end, inner},
coeficiente_alfa_b returns min(alfa_d, f_ub / f_u, 1.0) where alfa_d is
the value of coeficiente_alfa_d, and that value is at most 1 and at
most f_ub / f_u. -/
theorem C4_coeficiente_alfa_b (p : ResistenciaCalculo.Datos) (e_1 p_1 d_0 : ℚ)
    (pos : String) (hd : 0 < d_0) (hp : pos = "end" ∨ pos = "inner") :
    ∃ alfa_d, ResistenciaCalculo.coeficiente_alfa_d e_1 p_1 d_0 pos = Except.ok alfa_d ∧
      ResistenciaCalculo.coeficiente_alfa_b p e_1 p_1 d_0 pos =
        Except.ok (min (min alfa_d (p.f_ub / p.f_u)) 1) ∧
      min (min alfa_d (p.f_ub / p.f_u)) 1 ≤ 1 ∧
      min (min alfa_d (p.f_ub / p.f_u)) 1 ≤ p.f_ub / p.f_u := by
  rcases hp with rfl | rfl
  · refine ⟨e_1 / (3 * d_0), ?_, ?_, min_le_right _ _,
      le_trans (min_le_left _ _) (min_le_right _ _)⟩
    · simp [ResistenciaCalculo.coeficiente_alfa_d, hd.not_le]
    · simp [ResistenciaCalculo.coeficiente_alfa_b,
        ResistenciaCalculo.coeficiente_alfa_d, hd.not_le]
  · refine ⟨p_1 / (3 * d_0) - 1 / 4, ?_, ?_, min_le_right _ _,
      le_trans (min_le_left _ _) (min_le_right _ _)⟩
    · simp [ResistenciaCalculo.coeficiente_alfa_d, hd.not_le]
    · simp [ResistenciaCalculo.coeficiente_alfa_b,
        ResistenciaCalculo.coeficiente_alfa_d, hd.not_le]

/-- Witness for C4 at the boundary of the claim: with e_1 = 1000 and
d_0 = 1 the ratio e_1 / (3 d_0) exceeds both f_ub / f_u = 800 / 430 and
1, and the bearing coefficient of the fixture bolt is exactly 1. -/
theorem C4_witness :
    ResistenciaCalculo.coeficiente_alfa_b perno88 1000 1 1 "end" = Except.ok 1 := by
  obtain ⟨ad, had, hab, hle1, hle2⟩ :=
    C4_coeficiente_alfa_b perno88 1000 1 1 "end" (by norm_num) (Or.inl rfl)
  have hval : ResistenciaCalculo.coeficiente_alfa_d 1000 1 1 "end" =
      Except.ok (1000 / (3 * 1)) := by
    norm_num [ResistenciaCalculo.coeficiente_alfa_d]
  rw [hval] at had
  rw [hab, ← Except.ok.inj had]
  norm_num [perno88, min_def]

/-- C5: non-positive d_0 makes coeficiente_k_1, coeficiente_alfa_d and
coeficiente_alfa_b fail with the invalid-input ValueError, and an
unrecognized position makes coeficiente_k_1 fail with the
invalid-position ValueError; but coeficiente_alfa_d with an
unrecognized position does not raise: its else branch only prints, so
the call fails with UnboundLocalError, not InvalidPositionError. -/
theorem C5_validacion_coeficientes :
    ResistenciaCalculo.coeficiente_k_1 30 50 0 "edge" = Except.error PyErr.invalidInput ∧
    ResistenciaCalculo.coeficiente_alfa_d 30 50 (-1) "end" = Except.error PyErr.invalidInput ∧
    ResistenciaCalculo.coeficiente_alfa_b perno88 30 50 0 "end" = Except.error PyErr.invalidInput ∧
    ResistenciaCalculo.coeficiente_k_1 30 50 22 "outer" = Except.error PyErr.invalidPosition ∧
    ResistenciaCalculo.coeficiente_alfa_d 30 50 22 "outer" = Except.error PyErr.unboundLocal ∧
    PyErr.unboundLocal ≠ PyErr.invalidPosition := by
  decide

/-- C6: for the unrecognized grade string 9.9, the shear coefficient of
the EN 1993-1-8 engine with the shear plane through the thread and the
shear resistance of the EN 1993-1-3 engine both end in
UnboundLocalError (the 1-3 engine after printing a message), not in a
typed invalid-grade exception; 9.9 is outside both enumerated sets. -/
theorem C6_grado_invalido :
    ResistenciaCalculo.coeficiente_cortante_alfa_v perno99 true =
      Except.error PyErr.unboundLocal ∧
    ResistenciasDisenoTornillos.resistencia_cortante_F_vRd tornillo99 =
      Except.error PyErr.unboundLocal ∧
    perno99.grado ∉ ResistenciaCalculo.gradosAlfaV06 ∧
    perno99.grado ∉ ResistenciaCalculo.gradosAlfaV05 := by
  decide

/-- C7: for grade 8.8 the EN 1993-1-3 engine computes f_ub = 800, but
limite_elastico_tornillo_f_yb indexes element 2 of
grado.split(".", 1), a two-element list, so it fails with IndexError
and never returns 640. -/
theorem C7_parseo_grado :
    ResistenciasDisenoTornillos.limite_elastico_tornillo_f_yb tornillo88 =
      Except.error PyErr.indexError ∧
    ResistenciasDisenoTornillos.resistencia_ultima_traccion_tornillo_f_ub tornillo88 =
      Except.ok 800 ∧
    pySplitPunto1 "8.8" = ["8", "8"] := by
  decide

/-- Reduction of an Except bind on a success, used to run the embedded
code symbolically. -/
theorem except_bind_ok {ε α β : Type} (a : α) (f : α → Except ε β) :
    (Except.ok a : Except ε α) >>= f = f a := rfl

/-- Reduction of an Except bind on an error. -/
theorem except_bind_error {ε α β : Type} (e : ε) (f : α → Except ε β) :
    (Except.error e : Except ε α) >>= f = Except.error e := rfl

/-- Reduction of an Except map on a success. -/
theorem except_map_ok {ε α β : Type} (f : α → β) (a : α) :
    Except.map f (Except.ok a : Except ε α) = Except.ok (f a) := rfl

/-- Reduction of an Except map on an error. -/
theorem except_map_error {ε α β : Type} (f : α → β) (e : ε) :
    Except.map f (Except.error e : Except ε α) = Except.error e := rfl

/-- Reduction of the functorial map notation on a success. -/
theorem except_fmap_ok {ε α β : Type} (f : α → β) (a : α) :
    f <$> (Except.ok a : Except ε α) = Except.ok (f a) := rfl

/-- Reduction of the functorial map notation on an error. -/
theorem except_fmap_error {ε α β : Type} (f : α → β) (e : ε) :
    f <$> (Except.error e : Except ε α) = Except.error e := rfl

/-- C2 counterexample: at the concrete invalid load-direction position
"outer" (with valid geometry d_0 = 22 and valid k_1 position "edge"),
the base and oversized-hole bearing computations fail with
UnboundLocalError, while only the slotted-hole variant fails with the
invalid-position ValueError, so the validation of the three operations
is not identical and the base operation does not signal
InvalidPositionError. -/
theorem C2_contraejemplo :
    ResistenciaCalculo.capacidad_resistente_F_bRd perno88 30 30 50 50 22 "edge" "outer" =
      Except.error PyErr.unboundLocal ∧
    ResistenciaCalculo.capacidad_resistente_taladro_holgura_F_bRd perno88 30 30 50 50 22 "edge" "outer" =
      Except.error PyErr.unboundLocal ∧
    ResistenciaCalculo.capacidad_resistente_taladro_rasgado_F_bRd perno88 30 30 50 50 22 "edge" "outer" =
      Except.error PyErr.invalidPosition ∧
    PyErr.unboundLocal ≠ PyErr.invalidPosition := by
  decide

/-- C2 as amended: for valid positions and positive d_0 the base
bearing resistance is k_1 * alfa_b * f_u * d * t / g_M2 and the
oversized-hole and slotted-hole variants are exactly 0.8 and 0.6 times
that value; an invalid k_1 position fails with the invalid-position
ValueError in all three operations, but an invalid load-direction
position fails with UnboundLocalError in the base and oversized-hole
operations and with the invalid-position ValueError only in the
slotted-hole variant. -/
theorem C2_capacidad_resistente_variantes (p : ResistenciaCalculo.Datos)
    (e_1 e_2 p_1 p_2 d_0 : ℚ) (pk pa : String) (hd : 0 < d_0)
    (hk : pk = "edge" ∨ pk = "inner") (ha : pa = "end" ∨ pa = "inner") :
    (∃ k_1 alfa_b,
      ResistenciaCalculo.coeficiente_k_1 e_2 p_2 d_0 pk = Except.ok k_1 ∧
      ResistenciaCalculo.coeficiente_alfa_b p e_1 p_1 d_0 pa = Except.ok alfa_b ∧
      ResistenciaCalculo.capacidad_resistente_F_bRd p e_1 e_2 p_1 p_2 d_0 pk pa =
        Except.ok (k_1 * alfa_b * p.f_u * p.d * p.t / p.g_M2) ∧
      ResistenciaCalculo.capacidad_resistente_taladro_holgura_F_bRd p e_1 e_2 p_1 p_2 d_0 pk pa =
        Except.ok (0.8 * (k_1 * alfa_b * p.f_u * p.d * p.t / p.g_M2)) ∧
      ResistenciaCalculo.capacidad_resistente_taladro_rasgado_F_bRd p e_1 e_2 p_1 p_2 d_0 pk pa =
        Except.ok (0.6 * (k_1 * alfa_b * p.f_u * p.d * p.t / p.g_M2))) ∧
    (∀ s : String, s ∉ (["edge", "inner"] : List String) →
      ResistenciaCalculo.capacidad_resistente_F_bRd p e_1 e_2 p_1 p_2 d_0 s pa =
        Except.error PyErr.invalidPosition ∧
      ResistenciaCalculo.capacidad_resistente_taladro_holgura_F_bRd p e_1 e_2 p_1 p_2 d_0 s pa =
        Except.error PyErr.invalidPosition ∧
      ResistenciaCalculo.capacidad_resistente_taladro_rasgado_F_bRd p e_1 e_2 p_1 p_2 d_0 s pa =
        Except.error PyErr.invalidPosition) ∧
    (∀ s : String, s ∉ (["end", "inner"] : List String) →
      ResistenciaCalculo.capacidad_resistente_F_bRd p e_1 e_2 p_1 p_2 d_0 pk s =
        Except.error PyErr.unboundLocal ∧
      ResistenciaCalculo.capacidad_resistente_taladro_holgura_F_bRd p e_1 e_2 p_1 p_2 d_0 pk s =
        Except.error PyErr.unboundLocal ∧
      ResistenciaCalculo.capacidad_resistente_taladro_rasgado_F_bRd p e_1 e_2 p_1 p_2 d_0 pk s =
        Except.error PyErr.invalidPosition) := by
  have hk1 : ∃ v, ResistenciaCalculo.coeficiente_k_1 e_2 p_2 d_0 pk = Except.ok v := by
    rcases hk with rfl | rfl
    · exact ⟨min (min (2.8 * e_2 / d_0 - 1.7) (1.4 * p_2 / d_0 - 1.7)) 2.5,
        by simp [ResistenciaCalculo.coeficiente_k_1, hd.not_le]⟩
    · exact ⟨min (1.4 * p_2 / d_0 - 1.7) 2.5,
        by simp [ResistenciaCalculo.coeficiente_k_1, hd.not_le]⟩
  have hab : ∃ w, ResistenciaCalculo.coeficiente_alfa_b p e_1 p_1 d_0 pa = Except.ok w := by
    rcases ha with rfl | rfl
    · exact ⟨min (min (e_1 / (3 * d_0)) (p.f_ub / p.f_u)) 1,
        by simp [ResistenciaCalculo.coeficiente_alfa_b,
          ResistenciaCalculo.coeficiente_alfa_d, hd.not_le, except_bind_ok]⟩
    · exact ⟨min (min (p_1 / (3 * d_0) - 1 / 4) (p.f_ub / p.f_u)) 1,
        by simp [ResistenciaCalculo.coeficiente_alfa_b,
          ResistenciaCalculo.coeficiente_alfa_d, hd.not_le, except_bind_ok]⟩
  obtain ⟨v, hv⟩ := hk1
  obtain ⟨w, hw⟩ := hab
  have hmemk : pk ∈ (["edge", "inner"] : List String) := by
    rcases hk with rfl | rfl <;> decide
  have hmema : pa ∈ (["end", "inner"] : List String) := by
    rcases ha with rfl | rfl <;> decide
  have hbase : ResistenciaCalculo.capacidad_resistente_F_bRd p e_1 e_2 p_1 p_2 d_0 pk pa =
      Except.ok (v * w * p.f_u * p.d * p.t / p.g_M2) := by
    simp [ResistenciaCalculo.capacidad_resistente_F_bRd, hv, hw,
      except_bind_ok, except_fmap_ok]
  refine ⟨⟨v, w, hv, hw, hbase, ?_, ?_⟩, ?_, ?_⟩
  · simp [ResistenciaCalculo.capacidad_resistente_taladro_holgura_F_bRd, hbase,
      except_map_ok]
  · simp [ResistenciaCalculo.capacidad_resistente_taladro_rasgado_F_bRd,
      hmemk, hmema, hbase, except_map_ok]
  · intro s hs
    have hne1 : ¬s = "edge" := by intro h; exact hs (by simp [h])
    have hne2 : ¬s = "inner" := by intro h; exact hs (by simp [h])
    have hk1s : ResistenciaCalculo.coeficiente_k_1 e_2 p_2 d_0 s =
        Except.error PyErr.invalidPosition := by
      simp [ResistenciaCalculo.coeficiente_k_1, hd.not_le, hne1, hne2]
    refine ⟨?_, ?_, ?_⟩
    · simp [ResistenciaCalculo.capacidad_resistente_F_bRd, hk1s, except_bind_error]
    · simp [ResistenciaCalculo.capacidad_resistente_taladro_holgura_F_bRd,
        ResistenciaCalculo.capacidad_resistente_F_bRd, hk1s,
        except_bind_error, except_map_error]
    · simp [ResistenciaCalculo.capacidad_resistente_taladro_rasgado_F_bRd, hs]
  · intro s hs
    have hne1 : ¬s = "end" := by intro h; exact hs (by simp [h])
    have hne2 : ¬s = "inner" := by intro h; exact hs (by simp [h])
    have habs : ResistenciaCalculo.coeficiente_alfa_b p e_1 p_1 d_0 s =
        Except.error PyErr.unboundLocal := by
      simp [ResistenciaCalculo.coeficiente_alfa_b,
        ResistenciaCalculo.coeficiente_alfa_d, hd.not_le, hne1, hne2,
        except_bind_error]
    refine ⟨?_, ?_, ?_⟩
    · simp [ResistenciaCalculo.capacidad_resistente_F_bRd, hv, habs,
        except_bind_ok, except_bind_error, except_fmap_error]
    · simp [ResistenciaCalculo.capacidad_resistente_taladro_holgura_F_bRd,
        ResistenciaCalculo.capacidad_resistente_F_bRd, hv, habs,
        except_bind_ok, except_bind_error, except_fmap_error, except_map_error]
    · simp [ResistenciaCalculo.capacidad_resistente_taladro_rasgado_F_bRd, hmemk, hs]

/-- Witness for C2 at the fixture bolt with geometry e_1 = e_2 = 30,
p_1 = p_2 = 50, d_0 = 22 and positions edge and end: k_1 = 163/110,
alfa_b = 5/11, and the three bearing computations return the base value
and its 0.8 and 0.6 multiples. -/
theorem C2_witness :
    ResistenciaCalculo.capacidad_resistente_F_bRd perno88 30 30 50 50 22 "edge" "end" =
      Except.ok (163 / 110 * (5 / 11) * 430 * 20 * 15 / (5 / 4)) ∧
    ResistenciaCalculo.capacidad_resistente_taladro_holgura_F_bRd perno88 30 30 50 50 22 "edge" "end" =
      Except.ok (0.8 * (163 / 110 * (5 / 11) * 430 * 20 * 15 / (5 / 4))) ∧
    ResistenciaCalculo.capacidad_resistente_taladro_rasgado_F_bRd perno88 30 30 50 50 22 "edge" "end" =
      Except.ok (0.6 * (163 / 110 * (5 / 11) * 430 * 20 * 15 / (5 / 4))) := by
  obtain ⟨⟨v, w, hv, hw, h1, h2, h3⟩, -, -⟩ :=
    C2_capacidad_resistente_variantes perno88 30 30 50 50 22 "edge" "end"
      (by norm_num) (Or.inl rfl) (Or.inl rfl)
  have hv2 : ResistenciaCalculo.coeficiente_k_1 30 50 22 "edge" =
      Except.ok (163 / 110) := by
    norm_num [ResistenciaCalculo.coeficiente_k_1, min_def]
  have hw2 : ResistenciaCalculo.coeficiente_alfa_b perno88 30 50 22 "end" =
      Except.ok (5 / 11) := by
    rw [hv2] at hv
    norm_num [ResistenciaCalculo.coeficiente_alfa_b,
      ResistenciaCalculo.coeficiente_alfa_d, perno88, except_bind_ok, min_def]
  rw [hv2] at hv
  rw [hw2] at hw
  obtain rfl : (163 / 110 : ℚ) = v := Except.ok.inj hv
  obtain rfl : (5 / 11 : ℚ) = w := Except.ok.inj hw
  refine ⟨?_, ?_, ?_⟩
  · rw [h1]; norm_num [perno88]
  · rw [h2]; norm_num [perno88]
  · rw [h3]; norm_num [perno88]

/-- C8: for nonzero d_0 and g_M2 the net-section resistance returns
one entry per ratio in (2, 1, 1/2, 1/3), each the minimum of the
ratio-dependent candidate and the plain net-section value, with u =
min(2 e_2, p_2) and A_net = (p_2 - d_0) t taken from the
validity-range defaults e_2 = 1.5 d_0 and p_2 = 3 d_0. -/
theorem C8_capacidad_F_nRd (q : ResistenciasDisenoTornillos.Datos)
    (hd : q.d_0 ≠ 0) (hg : q.g_M2 ≠ 0) :
    ResistenciasDisenoTornillos.capacidad_resistente_area_transversal_neta_F_nRd q =
      Except.ok (([2, 1, 1/2, 1/3] : List ℚ).map (fun r =>
        min ((1 + 3 * r * (q.d_0 / min (2 * (1.5 * q.d_0)) (3 * q.d_0) - 0.3))
              * ((3 * q.d_0 - q.d_0) * q.t) * q.f_u / q.g_M2)
            ((3 * q.d_0 - q.d_0) * q.t * q.f_u / q.g_M2))) := by
  have h2 : (2 : ℚ) * (1.5 * q.d_0) = 3 * q.d_0 := by ring
  have hu : ResistenciasDisenoTornillos.coeficiente_u q.d_0 = 3 * q.d_0 := by
    unfold ResistenciasDisenoTornillos.coeficiente_u
      ResistenciasDisenoTornillos.rango_validez_e_2
      ResistenciasDisenoTornillos.rango_validez_p_2
    rw [h2, min_self]
  have hu0 : ResistenciasDisenoTornillos.coeficiente_u q.d_0 ≠ 0 := by
    rw [hu]; exact mul_ne_zero three_ne_zero hd
  unfold ResistenciasDisenoTornillos.capacidad_resistente_area_transversal_neta_F_nRd
  rw [if_neg hu0, if_neg hg]
  simp only [hu, h2, min_self,
    ResistenciasDisenoTornillos.relacion_tornillos_seccion_neta_entre_tornillos_totales,
    ResistenciasDisenoTornillos.area_transversal_neta,
    ResistenciasDisenoTornillos.rango_validez_p_2]

/-- Witness for C8 at the fixture with d_0 = 12, t = 2, f_u = 450,
g_M2 = 1.25: u = 36, A_net = 48, and all four entries evaluate to
17280 N. -/
theorem C8_witness :
    ResistenciasDisenoTornillos.capacidad_resistente_area_transversal_neta_F_nRd tornillo12 =
      Except.ok [17280, 17280, 17280, 17280] := by
  have h := C8_capacidad_F_nRd tornillo12 (by norm_num [tornillo12])
    (by norm_num [tornillo12])
  rw [h]
  norm_num [tornillo12, min_def]

/-- C9 counterexample: at s = 1 the source returns d_m = 1.07735,
which is not 1 / cos(30 degrees) = 2 / sqrt 3 = 1.1547...; the claimed
identity d_m = s / cos(30 degrees) fails at this input. -/
theorem C9_contraejemplo :
    ((ResistenciaCalculo.media_de_distancias_entre_vertices_y_caras_planas_d_m 1 : ℚ) : ℝ) ≠
      1 / Real.cos (Real.pi / 6) := by
  have hm : ((ResistenciaCalculo.media_de_distancias_entre_vertices_y_caras_planas_d_m 1 : ℚ) : ℝ)
      = 1.07735 := by
    norm_num [ResistenciaCalculo.media_de_distancias_entre_vertices_y_caras_planas_d_m]
  rw [hm, Real.cos_pi_div_six]
  intro h
  have hs3 : Real.sqrt 3 ^ 2 = 3 := Real.sq_sqrt (by norm_num)
  have hpos : 0 < Real.sqrt 3 := Real.sqrt_pos.mpr (by norm_num)
  have h2 : (1.07735 : ℝ) * (Real.sqrt 3 / 2) = 1 := by
    rw [h]
    field_simp
  nlinarith [hs3, hpos, h2]

/-- C9 as amended: the mean distance function returns d_m = 1.07735 s,
the arithmetic mean of the across-flats distance s and the
across-points distance 1.1547 s, not s / cos(30 degrees) itself, and
the punching resistance is 0.6 pi d_m(s) t f_u / g_M2. -/
theorem C9_punzonamiento (p : ResistenciaCalculo.Datos) (s : ℚ) :
    ResistenciaCalculo.media_de_distancias_entre_vertices_y_caras_planas_d_m s = 1.07735 * s ∧
    ResistenciaCalculo.media_de_distancias_entre_vertices_y_caras_planas_d_m s = (s + 1.1547 * s) / 2 ∧
    ResistenciaCalculo.resistencia_punzonamiento_B_pRd p s =
      0.6 * Real.pi * (ResistenciaCalculo.media_de_distancias_entre_vertices_y_caras_planas_d_m s : ℚ)
        * p.t * p.f_u / p.g_M2 := by
  refine ⟨rfl, ?_, rfl⟩
  unfold ResistenciaCalculo.media_de_distancias_entre_vertices_y_caras_planas_d_m
  ring

/-- C10: with the validity-range defaults, u = 3 d_0 and A_net =
2 d_0 t, every ratio-dependent candidate strictly exceeds
A_net f_u / g_M2 for the four positive ratios, and hence every entry
of the net-section resistance tuple equals A_net f_u / g_M2. -/
theorem C10_F_nRd_constante (q : ResistenciasDisenoTornillos.Datos)
    (hd : 0 < q.d_0) (ht : 0 < q.t) (hf : 0 < q.f_u) (hg : 0 < q.g_M2) :
    ResistenciasDisenoTornillos.coeficiente_u q.d_0 = 3 * q.d_0 ∧
    ResistenciasDisenoTornillos.area_transversal_neta q = 2 * q.d_0 * q.t ∧
    (∀ r ∈ ResistenciasDisenoTornillos.relacion_tornillos_seccion_neta_entre_tornillos_totales,
      ResistenciasDisenoTornillos.area_transversal_neta q * q.f_u / q.g_M2 <
        (1 + 3 * r * (q.d_0 / ResistenciasDisenoTornillos.coeficiente_u q.d_0 - 0.3))
          * ResistenciasDisenoTornillos.area_transversal_neta q * q.f_u / q.g_M2) ∧
    ResistenciasDisenoTornillos.capacidad_resistente_area_transversal_neta_F_nRd q =
      Except.ok (List.replicate 4
        (ResistenciasDisenoTornillos.area_transversal_neta q * q.f_u / q.g_M2)) := by
  have h2 : (2 : ℚ) * (1.5 * q.d_0) = 3 * q.d_0 := by ring
  have hu : ResistenciasDisenoTornillos.coeficiente_u q.d_0 = 3 * q.d_0 := by
    unfold ResistenciasDisenoTornillos.coeficiente_u
      ResistenciasDisenoTornillos.rango_validez_e_2
      ResistenciasDisenoTornillos.rango_validez_p_2
    rw [h2, min_self]
  have hA : ResistenciasDisenoTornillos.area_transversal_neta q = 2 * q.d_0 * q.t := by
    unfold ResistenciasDisenoTornillos.area_transversal_neta
      ResistenciasDisenoTornillos.rango_validez_p_2
    ring
  have hdu : q.d_0 / (3 * q.d_0) = 1 / 3 := by
    rw [div_eq_iff (by positivity)]
    ring
  have hXpos : 0 < ResistenciasDisenoTornillos.area_transversal_neta q * q.f_u / q.g_M2 := by
    rw [hA]; positivity
  have hkey : ∀ r : ℚ, 0 < r →
      ResistenciasDisenoTornillos.area_transversal_neta q * q.f_u / q.g_M2 <
        (1 + 3 * r * (q.d_0 / ResistenciasDisenoTornillos.coeficiente_u q.d_0 - 0.3))
          * ResistenciasDisenoTornillos.area_transversal_neta q * q.f_u / q.g_M2 := by
    intro r hr
    rw [hu, hdu]
    have hc : (1 + 3 * r * (1 / 3 - 0.3))
          * ResistenciasDisenoTornillos.area_transversal_neta q * q.f_u / q.g_M2 =
        (1 + r / 10) * (ResistenciasDisenoTornillos.area_transversal_neta q * q.f_u / q.g_M2) := by
      ring
    rw [hc]
    nlinarith [hXpos, hr, mul_pos hr hXpos]
  have hu0 : ResistenciasDisenoTornillos.coeficiente_u q.d_0 ≠ 0 := by
    rw [hu]; positivity
  have hmin : ∀ r : ℚ, 0 < r →
      min ((1 + 3 * r * (q.d_0 / ResistenciasDisenoTornillos.coeficiente_u q.d_0 - 0.3))
            * ResistenciasDisenoTornillos.area_transversal_neta q * q.f_u / q.g_M2)
          (ResistenciasDisenoTornillos.area_transversal_neta q * q.f_u / q.g_M2) =
        ResistenciasDisenoTornillos.area_transversal_neta q * q.f_u / q.g_M2 :=
    fun r hr => min_eq_right (hkey r hr).le
  refine ⟨hu, hA, ?_, ?_⟩
  · intro r hr
    simp only [ResistenciasDisenoTornillos.relacion_tornillos_seccion_neta_entre_tornillos_totales,
      List.mem_cons, List.mem_singleton, List.not_mem_nil, or_false] at hr
    rcases hr with rfl | rfl | rfl | rfl <;> exact hkey _ (by norm_num)
  · unfold ResistenciasDisenoTornillos.capacidad_resistente_area_transversal_neta_F_nRd
      ResistenciasDisenoTornillos.relacion_tornillos_seccion_neta_entre_tornillos_totales
    rw [if_neg hu0, if_neg hg.ne']
    simp only [List.map_cons, List.map_nil, List.replicate]
    rw [hmin 2 (by norm_num), hmin 1 (by norm_num), hmin (1/2) (by norm_num),
      hmin (1/3) (by norm_num)]

/-- Witness for C10 at the fixture with d_0 = 12, t = 2, f_u = 450,
g_M2 = 1.25: the tuple is constant at A_net f_u / g_M2 = 17280 N. -/
theorem C10_witness :
    ResistenciasDisenoTornillos.capacidad_resistente_area_transversal_neta_F_nRd tornillo12 =
      Except.ok (List.replicate 4 17280) := by
  obtain ⟨-, -, -, h⟩ := C10_F_nRd_constante tornillo12 (by norm_num [tornillo12])
    (by norm_num [tornillo12]) (by norm_num [tornillo12]) (by norm_num [tornillo12])
  rw [h]
  norm_num [tornillo12, ResistenciasDisenoTornillos.area_transversal_neta,
    ResistenciasDisenoTornillos.rango_validez_p_2]
